import Mathlib

/-!
Shallow embedding of the visit check-in/check-out backend
(`backend/src/server.js` on top of the `visits` table created by
`backend/src/db.js`).

Modelling conventions:
* a row of the `visits` table is a `Visit`; the table is a `Store` (a list
  of rows, insertion order);
* `timestamptz` values are seconds since the Unix epoch (`Nat`); Postgres's
  `DATE(ts AT TIME ZONE 'UTC')` is `utcDay` (Unix time has exactly 86400
  seconds per UTC day);
* optional JSON body fields that the code only uses as strings are
  `Option String`, with `none` standing for an absent (or non-string)
  value; JS falsiness of such a field (`x || null`, `if (x)`) is `orNull`;
* `now()` is a `now : Nat` parameter of each handler;
* the mail step (`sendNotification`, wrapped in `try { ... } catch`) is an
  abstract outcome `mail : Except String Unit` passed to the handler; the
  `catch` only logs, so the handler discards it;
* SQL `UPPER` is `String.toUpper` (the statuses compared are ASCII).
-/

namespace VisitApp

/-- One row of the `visits` table (schema from `initDb` in `db.js`:
`id uuid PRIMARY KEY, turbine_id text NOT NULL, technicians text[] NOT NULL,
reason text, comment text, check_in timestamptz NOT NULL DEFAULT now(),
check_out timestamptz` plus the optional columns `power_plant`,
`equipment_name`, `maintenance_company`, `status`, `malfunction_type`). -/
structure Visit where
  id : String
  turbine_id : String
  technicians : List String
  reason : Option String
  comment : Option String
  check_in : Nat
  check_out : Option Nat
  power_plant : Option String
  equipment_name : Option String
  maintenance_company : Option String
  status : Option String
  malfunction_type : Option String
deriving Repr, DecidableEq

abbrev Store := List Visit

/-- JS `x || null` for an optional string field: `undefined`, `null` and the
empty string are falsy and become `null`; any other string is kept. -/
def orNull : Option String → Option String
  | none => none
  | some s => if s = "" then none else some s

/-- `DATE(t AT TIME ZONE 'UTC')` for a Unix-seconds timestamp, as a day
number since the epoch. -/
def utcDay (t : Nat) : Nat := t / 86400

/-- JS `String.prototype.trim()`: strip leading and trailing whitespace
(written at the character level so that it evaluates inside the kernel;
same behaviour as `String.trim` on the inputs at hand). -/
def jsTrim (s : String) : String :=
  ⟨((s.data.dropWhile Char.isWhitespace).reverse.dropWhile
      Char.isWhitespace).reverse⟩

/-- Character-level worker for `jsSplitComma`; `acc` holds the current
segment, reversed. -/
def splitCommaAux : List Char → List Char → List String
  | [], acc => [⟨acc.reverse⟩]
  | c :: cs, acc =>
    if c = ',' then ⟨acc.reverse⟩ :: splitCommaAux cs []
    else splitCommaAux cs (c :: acc)

/-- JS `s.split(',')`: the segments of `s` between commas, in order; the
empty string yields `[""]`. -/
def jsSplitComma (s : String) : List String := splitCommaAux s.data []

/-- SQL `UPPER` (ASCII uppercasing, character by character). -/
def sqlUpper (s : String) : String := ⟨s.data.map Char.toUpper⟩

/-- `UPPER(COALESCE(status, 'IN')) = 'IN'` from the SQL of the active-site
and co-activity queries. -/
def statusIsIn (v : Visit) : Prop := sqlUpper (v.status.getD "IN") = "IN"

instance (v : Visit) : Decidable (statusIsIn v) := by
  unfold statusIsIn; infer_instance

/-- Row condition of the `active-site` query (`server.js` lines 72-81):
`power_plant = $1 AND check_out IS NULL AND UPPER(COALESCE(status,'IN')) =
'IN' AND DATE(check_in AT TIME ZONE 'UTC') = DATE(now() AT TIME ZONE 'UTC')`,
with `$1` the trimmed `powerPlant` query parameter. -/
def activeSiteMatch (p : String) (now : Nat) (v : Visit) : Bool :=
  decide (v.power_plant = some p ∧ v.check_out = none ∧ statusIsIn v ∧
    utcDay v.check_in = utcDay now)

/-- Insert a row into a list sorted by `check_in` descending
(models the `ORDER BY check_in DESC` of the active-site query). -/
def insertByCheckInDesc (v : Visit) : List Visit → List Visit
  | [] => [v]
  | w :: ws =>
    if w.check_in ≤ v.check_in then v :: w :: ws
    else w :: insertByCheckInDesc v ws

/-- Sort by `check_in` descending (`ORDER BY check_in DESC`). -/
def sortByCheckInDesc : List Visit → List Visit
  | [] => []
  | v :: vs => insertByCheckInDesc v (sortByCheckInDesc vs)

/-- Response of `GET /api/visits/active-site`: `{count, visits}` on success,
`400 {error}` when the `powerPlant` query parameter is missing/blank. -/
inductive SiteResp where
  | ok (count : Nat) (visits : List Visit)
  | badRequest (error : String)
deriving Repr, DecidableEq

/-- `GET /api/visits/active-site` (`server.js` lines 66-87). The guard
`!powerPlant || typeof powerPlant !== 'string' || !powerPlant.trim()`
collapses, for a string-or-absent parameter, to: absent, or blank after
trimming. The query binds the trimmed parameter. -/
def activeSiteHandler (powerPlant : Option String) (now : Nat)
    (store : Store) : SiteResp :=
  match powerPlant with
  | none => .badRequest "powerPlant is required"
  | some p =>
    if jsTrim p = "" then .badRequest "powerPlant is required"
    else
      let rows := sortByCheckInDesc (store.filter (activeSiteMatch (jsTrim p) now))
      .ok rows.length rows

/-- The `technicians` body field as the code inspects it:
a JSON array (`Array.isArray`), a string (`typeof === 'string'`), or
anything else (absent, `null`, a number, ...), which leaves `techs = []`. -/
inductive TechField where
  | list (xs : List String)
  | str (s : String)
  | missing
deriving Repr, DecidableEq

/-- The technician list before deduplication (`server.js` lines 108-116):
an array is mapped through `String(t).trim()` and filtered by `Boolean`
(dropping empty strings); a string is split on `','`, trimmed and filtered
the same way; anything else gives `[]`. -/
def rawTechs : TechField → List String
  | .list xs => (xs.map jsTrim).filter (fun s => s ≠ "")
  | .str s => ((jsSplitComma s).map jsTrim).filter (fun s => s ≠ "")
  | .missing => []

/-- Helper for `dedupe`: keep the elements not seen yet, first occurrence
first (insertion order of a JS `Set`). -/
def dedupeAux (seen : List String) : List String → List String
  | [] => []
  | x :: xs =>
    if x ∈ seen then dedupeAux seen xs
    else x :: dedupeAux (x :: seen) xs

/-- `Array.from(new Set(techs))` (`server.js` line 123): deduplicate keeping
the first occurrence of each element, in order. -/
def dedupe (l : List String) : List String := dedupeAux [] l

/-- Fallback turbine identifier (`server.js` line 106):
`powerPlant ? 'SITE-' + powerPlant : 'N/A'` (JS truthiness on the raw,
untrimmed `powerPlant` body field). -/
def turbineFallback (powerPlant : Option String) : String :=
  match orNull powerPlant with
  | some p => "SITE-" ++ p
  | none => "N/A"

/-- Effective turbine id (`server.js` lines 104-106):
`(typeof turbineId === 'string' && turbineId.trim()) ? turbineId.trim()
: fallback`. -/
def resolveTurbineId (turbineId powerPlant : Option String) : String :=
  match turbineId with
  | some t => if jsTrim t = "" then turbineFallback powerPlant else jsTrim t
  | none => turbineFallback powerPlant

/-- JSON body of `POST /api/visits/checkin` as destructured by the code.
`turbineId` is `none` when absent or not a string (the code tests
`typeof turbineId === 'string'`); the other optional fields are only ever
used through JS truthiness, so absent/non-string values behave as `none`. -/
structure CheckinBody where
  turbineId : Option String
  technicians : TechField
  reason : Option String
  comment : Option String
  powerPlant : Option String
  equipmentName : Option String
  maintenanceCompany : Option String
  status : Option String
  malfunctionType : Option String
deriving Repr, DecidableEq

/-- Response of `POST /api/visits/checkin`: `201 {visit, coActivity}` or
`400 {error}`. -/
inductive CheckinResp where
  | created (visit : Visit) (coActivity : Bool)
  | badRequest (error : String)
deriving Repr, DecidableEq

/-- The co-activity count query (`server.js` lines 152-159), run after the
insert: `COUNT(*)` over `power_plant = $1 AND check_out IS NULL AND
id <> $2 AND UPPER(COALESCE(status,'IN')) = 'IN' AND DATE(check_in AT TIME
ZONE 'UTC') = DATE(now() AT TIME ZONE 'UTC')` with `$1` the raw
`powerPlant` body field and `$2` the freshly inserted id. -/
def coActivityCount (p : String) (newId : String) (now : Nat)
    (store : Store) : Nat :=
  (store.filter (fun v => decide (v.power_plant = some p ∧
    v.check_out = none ∧ v.id ≠ newId ∧ statusIsIn v ∧
    utcDay v.check_in = utcDay now))).length

/-- The row built by the check-in `INSERT` (`server.js` lines 125-147):
the listed columns get the normalized values, `check_in` takes the column
default `now()`, `check_out` stays `NULL`. -/
def insertedVisit (body : CheckinBody) (freshId : String) (now : Nat) : Visit :=
  { id := freshId
    turbine_id := resolveTurbineId body.turbineId body.powerPlant
    technicians := dedupe (rawTechs body.technicians)
    reason := orNull body.reason
    comment := orNull body.comment
    check_in := now
    check_out := none
    power_plant := orNull body.powerPlant
    equipment_name := orNull body.equipmentName
    maintenance_company := orNull body.maintenanceCompany
    status := orNull body.status
    malfunction_type := orNull body.malfunctionType }

/-- The derived `coActivity` boolean (`server.js` lines 150-161): `false`
when the raw `powerPlant` body field is falsy (the query is skipped),
otherwise `(co[0]?.cnt || 0) > 0` over the post-insert table. -/
def coActivityFlag (body : CheckinBody) (freshId : String) (now : Nat)
    (store' : Store) : Bool :=
  match orNull body.powerPlant with
  | some p => decide (0 < coActivityCount p freshId now store')
  | none => false

/-- `POST /api/visits/checkin` (`server.js` lines 89-188). `freshId` is the
`randomUUID()` value; `now` is the insert time; `mail` is the outcome of
the notification attempt, which the `try/catch` swallows (`console.warn`
only). The dedupe step (line 123) runs after the emptiness check
(line 118), which only ever sees the un-deduplicated list. -/
def checkinHandler (body : CheckinBody) (freshId : String) (now : Nat)
    (mail : Except String Unit) (store : Store) : Store × CheckinResp :=
  if rawTechs body.technicians = [] then
    (store, .badRequest "At least one technician name is required")
  else
    let v := insertedVisit body freshId now
    let store' := store ++ [v]
    -- mail attempt: `try { ... await sendNotification ... } catch (e) { console.warn }`
    let _ := mail
    (store', .created v (coActivityFlag body freshId now store'))

/-- Response of `POST /api/visits/checkout`: `200 {visitId, checkOut}`,
`400 {error}` or `404 {error}`. -/
inductive CheckoutResp where
  | ok (visitId : String) (checkOut : Nat)
  | badRequest (error : String)
  | notFound (error : String)
deriving Repr, DecidableEq

/-- The `WHERE` clause of the check-out `UPDATE` (`server.js` lines
198-203): `id = $1 AND check_out IS NULL`. -/
def checkoutMatches (vid : String) (v : Visit) : Bool :=
  decide (v.id = vid ∧ v.check_out = none)

/-- Effect of `UPDATE visits SET check_out = now() WHERE id = $1 AND
check_out IS NULL` on the table. -/
def closeAll (vid : String) (now : Nat) (store : Store) : Store :=
  store.map (fun v =>
    if checkoutMatches vid v then { v with check_out := some now } else v)

/-- `POST /api/visits/checkout` (`server.js` lines 190-237). The guard
`!visitId || typeof visitId !== 'string'` is `orNull visitId = none`.
The conditional `UPDATE ... RETURNING id, check_out` yields the updated
rows; an empty result is the 404 branch. `mail` is the outcome of the
notification attempt, swallowed by its `try/catch`. -/
def checkoutHandler (visitId : Option String) (now : Nat)
    (mail : Except String Unit) (store : Store) : Store × CheckoutResp :=
  match orNull visitId with
  | none => (store, .badRequest "visitId is required")
  | some vid =>
    let returned := (store.filter (checkoutMatches vid)).map
      (fun v => { v with check_out := some now })
    let store' := closeAll vid now store
    match returned with
    | [] => (store', .notFound "Active visit not found or already checked out")
    | r :: _ =>
      -- mail attempt, swallowed by `try/catch`
      let _ := mail
      (store', .ok r.id now)

/-! ### Rate guard

`server.js` configures `express-rate-limit` (lines 27-40) with
`windowMs: 60 * 1000`, `max: 5`, a key of `ip + '|' + req.path`, and a
handler answering `429 {error}`. The window bookkeeping itself lives in the
library, which is not part of this repository. -/

/-- Modelled from the spec: the RateGuard window state (§4.5: "A fixed
sliding-window admission filter keyed by `(clientAddress, routePath)`").
The `express-rate-limit` implementation is a dependency, absent from the
repository, so the state is the spec's: the timestamps (in ms) of the
counted (admitted) requests, per key. -/
structure RateState where
  hits : List (String × Nat)
deriving Repr, DecidableEq

/-- The limiter key (`server.js` lines 32-36): `ip + '|' + req.path`. -/
def rateKey (ip path : String) : String := ip ++ "|" ++ path

/-- `windowMs: 60 * 1000` (`server.js` line 28). -/
def rateWindowMs : Nat := 60 * 1000

/-- `max: 5` (`server.js` line 29). -/
def rateMax : Nat := 5

/-- Modelled from the spec: how many counted requests of `key` are still
inside the 60-second window ending at `now` (a request at `t` ages out of
the window once `now ≥ t + 60000`). -/
def countedInWindow (key : String) (now : Nat) : List (String × Nat) → Nat
  | [] => 0
  | h :: t =>
    (if h.1 = key ∧ now < h.2 + rateWindowMs then 1 else 0) +
      countedInWindow key now t

/-- Modelled from the spec: RateGuard admission (§4.5: "at most 5 requests
per 60-second window per key; the 6th and subsequent requests within the
window are rejected with a rate-limit error until the oldest counted
request ages out"). `true` admits the request and counts it; `false` is the
429 rejection (`Too many submissions from this IP, please try again
later.`) and leaves the state unchanged. -/
def rateAdmit (key : String) (now : Nat) (st : RateState) : Bool × RateState :=
  if countedInWindow key now st.hits < rateMax then
    (true, ⟨(key, now) :: st.hits⟩)
  else (false, st)

/-- Run a sequence of same-key requests at the given times through the
guard, returning the admission verdicts and the final state. -/
def rateRun (key : String) : List Nat → RateState → List Bool × RateState
  | [], st => ([], st)
  | t :: ts, st =>
    let r := rateAdmit key t st
    let rest := rateRun key ts r.2
    (r.1 :: rest.1, rest.2)

/-! ### Reference formulations and fixtures -/

/-- Reference formulation of the spec sentence "deduplicated array ...
order of first occurrence": scan left to right, appending each element the
first time it is seen. Compared against `dedupe` below. -/
def firstOccurrences (l : List String) : List String :=
  l.foldl (fun acc x => if x ∈ acc then acc else acc ++ [x]) []

/-- No optional text column of the row holds the empty string (they are
`NULL` instead). -/
def noEmptyOptionalFields (v : Visit) : Prop :=
  v.reason ≠ some "" ∧ v.comment ≠ some "" ∧ v.power_plant ≠ some "" ∧
  v.equipment_name ≠ some "" ∧ v.maintenance_company ≠ some "" ∧
  v.status ≠ some "" ∧ v.malfunction_type ≠ some ""

/-- Fixture: an active (`check_out IS NULL`), `status = 'IN'` visit of
today at power plant `P`. -/
def visitActiveP : Visit :=
  { id := "v1"
    turbine_id := "T1"
    technicians := ["Alice"]
    reason := none
    comment := none
    check_in := 0
    check_out := none
    power_plant := some "P"
    equipment_name := none
    maintenance_company := none
    status := some "IN"
    malfunction_type := none }

/-- Fixture: like `visitActiveP` but checked in at power plant `" A"`
(leading space). -/
def visitSpaceA : Visit :=
  { visitActiveP with id := "v2", power_plant := some " A" }

/-- Fixture: a check-in body without a technicians field. -/
def bodyNoTech : CheckinBody :=
  { turbineId := none
    technicians := .missing
    reason := none
    comment := none
    powerPlant := none
    equipmentName := none
    maintenanceCompany := none
    status := some "IN"
    malfunctionType := none }

/-- Fixture: a check-in body with a duplicated, untrimmed technician array
and a power plant. -/
def bodyDup : CheckinBody :=
  { bodyNoTech with
    technicians := .list ["Alice", "Alice", " Bob "]
    powerPlant := some "P" }

/-- Fixture: a minimal valid check-in body at power plant `P`. -/
def bodyAlice : CheckinBody :=
  { bodyNoTech with technicians := .list ["Alice"], powerPlant := some "P" }

/-! ### Helper lemmas -/

theorem mem_insertByCheckInDesc {v w : Visit} {l : List Visit} :
    v ∈ insertByCheckInDesc w l ↔ v = w ∨ v ∈ l := by
  induction l with
  | nil => simp [insertByCheckInDesc]
  | cons a as ih =>
    simp only [insertByCheckInDesc]
    split
    · simp [List.mem_cons]
    · simp only [List.mem_cons, ih]
      tauto

theorem mem_sortByCheckInDesc {v : Visit} {l : List Visit} :
    v ∈ sortByCheckInDesc l ↔ v ∈ l := by
  induction l with
  | nil => simp [sortByCheckInDesc]
  | cons a as ih => simp [sortByCheckInDesc, mem_insertByCheckInDesc, ih]

theorem mem_dedupeAux {x : String} {l seen : List String} :
    x ∈ dedupeAux seen l ↔ x ∈ l ∧ x ∉ seen := by
  induction l generalizing seen with
  | nil => simp [dedupeAux]
  | cons a as ih =>
    simp only [dedupeAux]
    split
    · rename_i ha
      rw [ih]
      constructor
      · rintro ⟨hx, hs⟩
        exact ⟨List.mem_cons_of_mem a hx, hs⟩
      · rintro ⟨hx, hs⟩
        rcases List.mem_cons.mp hx with h | h
        · exact absurd (h ▸ ha) hs
        · exact ⟨h, hs⟩
    · rename_i ha
      simp only [List.mem_cons, ih]
      constructor
      · rintro (h | ⟨hx, hs⟩)
        · exact ⟨Or.inl h, h ▸ ha⟩
        · exact ⟨Or.inr hx, fun hc => hs (Or.inr hc)⟩
      · rintro ⟨h | h, hs⟩
        · exact Or.inl h
        · by_cases hxa : x = a
          · exact Or.inl hxa
          · exact Or.inr ⟨h, by simp [List.mem_cons, hxa, hs]⟩

theorem mem_dedupe {x : String} {l : List String} :
    x ∈ dedupe l ↔ x ∈ l := by
  simp [dedupe, mem_dedupeAux]

theorem nodup_dedupeAux {l seen : List String} : (dedupeAux seen l).Nodup := by
  induction l generalizing seen with
  | nil => simp [dedupeAux]
  | cons a as ih =>
    simp only [dedupeAux]
    split
    · exact ih
    · exact List.nodup_cons.mpr
        ⟨fun hc => (mem_dedupeAux.mp hc).2 (List.mem_cons_self a _), ih⟩

theorem nodup_dedupe {l : List String} : (dedupe l).Nodup := nodup_dedupeAux

theorem dedupeAux_eq_foldl (l : List String) : ∀ (seen acc : List String),
    (∀ x, x ∈ seen ↔ x ∈ acc) →
    acc ++ dedupeAux seen l =
      l.foldl (fun a x => if x ∈ a then a else a ++ [x]) acc := by
  induction l with
  | nil => intro seen acc _; simp [dedupeAux]
  | cons y ys ih =>
    intro seen acc h
    simp only [dedupeAux, List.foldl]
    by_cases hy : y ∈ seen
    · rw [if_pos hy, if_pos ((h y).mp hy)]
      exact ih seen acc h
    · rw [if_neg hy, if_neg (fun hc => hy ((h y).mpr hc))]
      have hsplit : acc ++ y :: dedupeAux (y :: seen) ys =
          (acc ++ [y]) ++ dedupeAux (y :: seen) ys := by simp
      rw [hsplit]
      refine ih (y :: seen) (acc ++ [y]) ?_
      intro x
      simp only [List.mem_cons, List.mem_append, List.mem_singleton, h x]
      tauto

theorem dedupe_eq_firstOccurrences (l : List String) :
    dedupe l = firstOccurrences l := by
  simpa [dedupe, firstOccurrences] using dedupeAux_eq_foldl l [] [] (by simp)

theorem orNull_eq_some {x : Option String} {s : String} :
    orNull x = some s ↔ x = some s ∧ s ≠ "" := by
  cases x with
  | none => simp [orNull]
  | some t =>
    simp only [orNull]
    split
    · rename_i h
      subst h
      constructor
      · intro hc; exact absurd hc (by simp)
      · rintro ⟨hc, hs⟩
        exact absurd (Option.some.inj hc).symm hs
    · rename_i h
      constructor
      · intro hc
        exact ⟨hc, fun he => h ((Option.some.inj hc).trans he)⟩
      · exact fun hc => hc.1

theorem orNull_eq_none {x : Option String} :
    orNull x = none ↔ x = none ∨ x = some "" := by
  cases x with
  | none => simp [orNull]
  | some t =>
    simp only [orNull]
    split
    · rename_i h; simp [h]
    · rename_i h; simp [h]

theorem orNull_ne_some_empty (x : Option String) : orNull x ≠ some "" := by
  intro hc
  exact absurd (orNull_eq_some.mp hc).2 (by simp)

theorem checkoutMatches_eq_true {vid : String} {v : Visit} :
    checkoutMatches vid v = true ↔ v.id = vid ∧ v.check_out = none := by
  simp [checkoutMatches]

/-- Success case of the check-out transition: some row with the requested
id is still open, so the conditional `UPDATE` matches and the handler
answers `{visitId, checkOut}`. -/
theorem checkoutHandler_success {store : Store} {vid : String} {now : Nat}
    {m : Except String Unit} (hvid : vid ≠ "")
    (hex : ∃ v ∈ store, v.id = vid ∧ v.check_out = none) :
    checkoutHandler (some vid) now m store =
      (closeAll vid now store, .ok vid now) := by
  obtain ⟨v, hv, hid, hco⟩ := hex
  have hvfil : v ∈ store.filter (checkoutMatches vid) :=
    List.mem_filter.mpr ⟨hv, checkoutMatches_eq_true.mpr ⟨hid, hco⟩⟩
  have hscrut : orNull (some vid) = some vid := by simp [orNull, hvid]
  simp only [checkoutHandler, hscrut]
  cases hf : store.filter (checkoutMatches vid) with
  | nil => rw [hf] at hvfil; simp at hvfil
  | cons a as =>
    have ha : checkoutMatches vid a = true :=
      (List.mem_filter.mp (hf ▸ List.mem_cons_self a as)).2
    have haid : a.id = vid := (checkoutMatches_eq_true.mp ha).1
    simp [haid]

/-- Miss case of the check-out transition: no row with the requested id is
open, the `UPDATE` matches nothing, the table is unchanged and the handler
answers 404. -/
theorem checkoutHandler_notFound {store : Store} {vid : String} {now : Nat}
    {m : Except String Unit} (hvid : vid ≠ "")
    (hnone : ∀ v ∈ store, v.id = vid → v.check_out ≠ none) :
    checkoutHandler (some vid) now m store =
      (store, .notFound "Active visit not found or already checked out") := by
  have hf : store.filter (checkoutMatches vid) = [] := by
    rw [List.filter_eq_nil_iff]
    intro a ha hc
    obtain ⟨h1, h2⟩ := checkoutMatches_eq_true.mp hc
    exact hnone a ha h1 h2
  have hclose : closeAll vid now store = store := by
    rw [closeAll]
    have : ∀ a ∈ store,
        (if checkoutMatches vid a then { a with check_out := some now }
          else a) = id a := by
      intro a ha
      have : checkoutMatches vid a = false := by
        rcases hc : checkoutMatches vid a with _ | _
        · rfl
        · obtain ⟨h1, h2⟩ := checkoutMatches_eq_true.mp hc
          exact absurd h2 (hnone a ha h1)
      simp [this]
    rw [List.map_congr_left this, List.map_id]
  have hscrut : orNull (some vid) = some vid := by simp [orNull, hvid]
  simp only [checkoutHandler, hscrut]
  rw [hf, hclose]
  simp

/-- Inversion for a successful check-in: the handler output determines the
inserted row and the co-activity flag. -/
theorem checkinHandler_created {body : CheckinBody} {freshId : String}
    {now : Nat} {m : Except String Unit} {store : Store} {v : Visit}
    {co : Bool}
    (h : (checkinHandler body freshId now m store).2 = .created v co) :
    v = insertedVisit body freshId now ∧
      co = coActivityFlag body freshId now (store ++ [insertedVisit body freshId now]) ∧
      checkinHandler body freshId now m store = (store ++ [v], .created v co) := by
  by_cases hte : rawTechs body.technicians = []
  · rw [checkinHandler, if_pos hte] at h
    exact absurd h (by simp)
  · simp only [checkinHandler, if_neg hte] at h
    obtain ⟨hv, hco⟩ : insertedVisit body freshId now = v ∧
        coActivityFlag body freshId now (store ++ [insertedVisit body freshId now]) = co :=
      CheckinResp.created.inj h
    refine ⟨hv.symm, hco.symm, ?_⟩
    simp only [checkinHandler, if_neg hte]
    rw [hco, hv]

/-- For a present, non-empty `visitId`, the handler's resulting table is
always the conditional update's image (which is the identity when nothing
matches). -/
theorem checkoutHandler_fst (store : Store) (vid : String) (now : Nat)
    (m : Except String Unit) (hvid : vid ≠ "") :
    (checkoutHandler (some vid) now m store).1 = closeAll vid now store := by
  have hscrut : orNull (some vid) = some vid := by simp [orNull, hvid]
  simp only [checkoutHandler, hscrut]
  cases (store.filter (checkoutMatches vid)).map
      (fun v => { v with check_out := some now }) <;> simp

/-! ### Claim theorems -/

/-- C1: a check-out request whose id has an open visit row sets that row's
`check_out` to the current time and answers `{visitId, checkOut}`; an
unknown id and an already-closed visit are answered alike with the 404
error, every stored row (and in particular every stored `check_out`)
untouched; rows not matching the guard are never modified; and a second
check-out of the same id gets the 404 while the first timestamp survives
unchanged. -/
theorem checkout_lifecycle_spec (store : Store) (vid : String)
    (hvid : vid ≠ "") (now now2 : Nat) (m m2 : Except String Unit) :
    ((∃ v ∈ store, v.id = vid ∧ v.check_out = none) →
        checkoutHandler (some vid) now m store =
          (closeAll vid now store, .ok vid now)) ∧
    ((∀ v ∈ store, v.id = vid → v.check_out ≠ none) →
        checkoutHandler (some vid) now m store =
          (store, .notFound "Active visit not found or already checked out")) ∧
    (∀ v ∈ store, ¬(v.id = vid ∧ v.check_out = none) →
        v ∈ (checkoutHandler (some vid) now m store).1) ∧
    (∀ v ∈ store, v.id = vid → v.check_out = none →
        { v with check_out := some now } ∈
            (checkoutHandler (some vid) now m store).1 ∧
        checkoutHandler (some vid) now2 m2
            (checkoutHandler (some vid) now m store).1 =
          ((checkoutHandler (some vid) now m store).1,
            .notFound "Active visit not found or already checked out")) := by
  refine ⟨fun hex => checkoutHandler_success hvid hex,
    fun hall => checkoutHandler_notFound hvid hall, ?_, ?_⟩
  · intro v hv hnm
    rw [checkoutHandler_fst store vid now m hvid, closeAll]
    have hcm : ¬(checkoutMatches vid v = true) :=
      fun hc => hnm (checkoutMatches_eq_true.mp hc)
    exact List.mem_map.mpr ⟨v, hv, by rw [if_neg hcm]⟩
  · intro v hv hid hco
    have hfst := checkoutHandler_fst store vid now m hvid
    constructor
    · rw [hfst, closeAll]
      exact List.mem_map.mpr
        ⟨v, hv, by rw [if_pos (checkoutMatches_eq_true.mpr ⟨hid, hco⟩)]⟩
    · rw [hfst]
      refine checkoutHandler_notFound hvid ?_
      intro w hw hwid
      rw [closeAll] at hw
      obtain ⟨u, hu, huw⟩ := List.mem_map.mp hw
      by_cases hcm : checkoutMatches vid u = true
      · rw [if_pos hcm] at huw
        rw [← huw]
        simp
      · rw [if_neg hcm] at huw
        subst huw
        intro hnone
        exact hcm (checkoutMatches_eq_true.mpr ⟨hwid, hnone⟩)

/-- Witness for C1 at a one-row table holding an open visit `v1`. -/
theorem checkout_lifecycle_spec_witness :
    checkoutHandler (some "v1") 3 (.ok ()) [visitActiveP] =
      (closeAll "v1" 3 [visitActiveP], .ok "v1" 3) ∧
    checkoutHandler (some "v1") 9 (.ok ())
        (checkoutHandler (some "v1") 3 (.ok ()) [visitActiveP]).1 =
      ((checkoutHandler (some "v1") 3 (.ok ()) [visitActiveP]).1,
        .notFound "Active visit not found or already checked out") :=
  ⟨(checkout_lifecycle_spec [visitActiveP] "v1" (by decide) 3 9
      (.ok ()) (.ok ())).1 ⟨visitActiveP, by decide, rfl, rfl⟩,
   ((checkout_lifecycle_spec [visitActiveP] "v1" (by decide) 3 9
      (.ok ()) (.ok ())).2.2.2 visitActiveP (by decide) rfl rfl).2⟩

/-- C2 counterexample: the active-site query compares rows against the
TRIMMED `powerPlant` parameter, so for the non-empty parameter `" A"` a
visit whose `power_plant` equals `" A"` verbatim — active, `status = 'IN'`,
checked in on the current UTC day — is not returned (the claim, which
matches on `powerPlant = p` untrimmed, demands count 1); and the non-empty,
all-whitespace parameter `" "` is rejected with 400 instead of being
answered with a count at all. -/
theorem active_site_counterexample :
    activeSiteHandler (some " A") 0 [visitSpaceA] = .ok 0 [] ∧
    visitSpaceA.power_plant = some " A" ∧
    visitSpaceA.check_out = none ∧
    visitSpaceA.status = some "IN" ∧
    utcDay visitSpaceA.check_in = utcDay 0 ∧
    activeSiteHandler (some " ") 0 [visitSpaceA] =
      .badRequest "powerPlant is required" := by decide

/-- C2 (amended): for every `powerPlant` parameter that is non-blank after
trimming, the active-site endpoint returns a count equal to the length of
the returned list, and that list holds exactly the visits whose
`power_plant` equals the trimmed parameter, with `check_out IS NULL`,
status case-insensitively `IN` (a NULL status counting as `IN`), and
`check_in` on the current UTC day. -/
theorem active_site_query_spec (p : String) (now : Nat) (store : Store)
    (hp : jsTrim p ≠ "") :
    ∃ rows, activeSiteHandler (some p) now store = .ok rows.length rows ∧
      ∀ v, v ∈ rows ↔ v ∈ store ∧ v.power_plant = some (jsTrim p) ∧
        v.check_out = none ∧ statusIsIn v ∧
        utcDay v.check_in = utcDay now := by
  refine ⟨sortByCheckInDesc (store.filter (activeSiteMatch (jsTrim p) now)),
    ?_, ?_⟩
  · simp [activeSiteHandler, hp]
  · intro v
    rw [mem_sortByCheckInDesc, List.mem_filter]
    simp [activeSiteMatch]

/-- Witness for C2 (amended) at the parameter `P` over a one-row table. -/
theorem active_site_query_spec_witness :
    ∃ rows, activeSiteHandler (some "P") 0 [visitActiveP] =
        .ok rows.length rows ∧
      ∀ v, v ∈ rows ↔ v ∈ [visitActiveP] ∧
        v.power_plant = some (jsTrim "P") ∧ v.check_out = none ∧
        statusIsIn v ∧ utcDay v.check_in = utcDay 0 :=
  active_site_query_spec "P" 0 [visitActiveP] (by decide)

/-- C3: for a successful check-in, the returned `coActivity` is `true` iff
the requested `powerPlant` is truthy and the table right after the insert
holds a visit with a different id, the same `power_plant`, `check_out IS
NULL`, status counting as `IN` (NULL defaulting to `IN` per the query's
`COALESCE`), and `check_in` on the current UTC day. -/
theorem checkin_coactivity_spec (body : CheckinBody) (freshId : String)
    (now : Nat) (m : Except String Unit) (store : Store) (v : Visit)
    (co : Bool)
    (h : (checkinHandler body freshId now m store).2 = .created v co) :
    co = true ↔ ∃ p, orNull body.powerPlant = some p ∧
      ∃ w ∈ (checkinHandler body freshId now m store).1,
        w.id ≠ freshId ∧ w.power_plant = some p ∧ w.check_out = none ∧
        statusIsIn w ∧ utcDay w.check_in = utcDay now := by
  obtain ⟨hv, hco, heq⟩ := checkinHandler_created h
  rw [heq, hco, hv]
  cases hop : orNull body.powerPlant with
  | none =>
    simp only [coActivityFlag, hop]
    constructor
    · intro hc; exact absurd hc (by simp)
    · rintro ⟨p, hp, -⟩; exact absurd hp (by simp)
  | some p =>
    simp only [coActivityFlag, hop, decide_eq_true_eq]
    have hiff : 0 < coActivityCount p freshId now
        (store ++ [insertedVisit body freshId now]) ↔
        ∃ w ∈ store ++ [insertedVisit body freshId now],
          w.power_plant = some p ∧ w.check_out = none ∧ w.id ≠ freshId ∧
          statusIsIn w ∧ utcDay w.check_in = utcDay now := by
      rw [coActivityCount, ← List.countP_eq_length_filter, List.countP_pos_iff]
      simp only [decide_eq_true_eq]
    rw [hiff]
    constructor
    · rintro ⟨w, hw, h1, h2, h3, h4, h5⟩
      exact ⟨p, rfl, w, hw, h3, h1, h2, h4, h5⟩
    · rintro ⟨q, hq, w, hw, h3, h1, h2, h4, h5⟩
      cases Option.some.inj hq
      exact ⟨w, hw, h1, h2, h3, h4, h5⟩

/-- Witness for C3: a second same-day check-in at plant `P` sees the first
one and reports `coActivity = true`. -/
theorem checkin_coactivity_spec_witness :
    true = true ↔ ∃ p, orNull bodyAlice.powerPlant = some p ∧
      ∃ w ∈ (checkinHandler bodyAlice "new" 7 (.ok ()) [visitActiveP]).1,
        w.id ≠ "new" ∧ w.power_plant = some p ∧ w.check_out = none ∧
        statusIsIn w ∧ utcDay w.check_in = utcDay 7 :=
  checkin_coactivity_spec bodyAlice "new" 7 (.ok ()) [visitActiveP]
    (insertedVisit bodyAlice "new" 7) true (by decide)

/-- C4: a check-in whose normalized technician list is non-empty appends
exactly one row to the table; that row carries the freshly generated id
(unique in the table, given that the generated id is fresh),
`check_out = NULL` and `check_in = now`, and is returned to the caller. -/
theorem checkin_insert_spec (body : CheckinBody) (freshId : String)
    (now : Nat) (m : Except String Unit) (store : Store)
    (htech : rawTechs body.technicians ≠ [])
    (hfresh : ∀ w ∈ store, w.id ≠ freshId) :
    ∃ v co, checkinHandler body freshId now m store =
        (store ++ [v], .created v co) ∧
      v.id = freshId ∧ v.check_out = none ∧ v.check_in = now ∧
      (store ++ [v]).filter (fun w => decide (w.id = freshId)) = [v] := by
  refine ⟨insertedVisit body freshId now,
    coActivityFlag body freshId now (store ++ [insertedVisit body freshId now]),
    by simp only [checkinHandler, if_neg htech], rfl, rfl, rfl, ?_⟩
  rw [List.filter_append]
  have h1 : store.filter (fun w => decide (w.id = freshId)) = [] := by
    rw [List.filter_eq_nil_iff]
    intro a ha
    simp [hfresh a ha]
  have h2 : [insertedVisit body freshId now].filter
      (fun w => decide (w.id = freshId)) = [insertedVisit body freshId now] := by
    simp [insertedVisit]
  rw [h1, h2]
  simp

/-- Witness for C4 on the empty table. -/
theorem checkin_insert_spec_witness :
    ∃ v co, checkinHandler bodyAlice "new" 7 (.ok ()) [] =
        ([] ++ [v], .created v co) ∧
      v.id = "new" ∧ v.check_out = none ∧ v.check_in = 7 ∧
      ([] ++ [v]).filter (fun w => decide (w.id = "new")) = [v] :=
  checkin_insert_spec bodyAlice "new" 7 (.ok ()) [] (by decide) (by decide)

/-- C5: `technicians` is accepted as an array or as a comma-separated
string (the string behaving exactly like the array of its comma-split
parts); the stored list keeps each entry's first occurrence in order
(`dedupe` agrees with the left-to-right first-occurrence scan), holds no
duplicates, and every stored entry is a trimmed, non-empty string; on the
sample input `["Alice", "Alice", " Bob "]` the stored list is
`["Alice", "Bob"]`. -/
theorem technician_normalization_spec :
    (∀ body freshId now m store v co,
        checkinHandler body freshId now m store = (store ++ [v], .created v co) →
        v.technicians = dedupe (rawTechs body.technicians)) ∧
    (∀ s, rawTechs (.str s) = rawTechs (.list (jsSplitComma s))) ∧
    (∀ l, dedupe l = firstOccurrences l) ∧
    (∀ t, (dedupe (rawTechs t)).Nodup) ∧
    (∀ t x, x ∈ dedupe (rawTechs t) → x ≠ "" ∧ ∃ s, x = jsTrim s) ∧
    dedupe (rawTechs (.list ["Alice", "Alice", " Bob "])) = ["Alice", "Bob"] := by
  refine ⟨?_, fun s => rfl, dedupe_eq_firstOccurrences,
    fun t => nodup_dedupe, ?_, by decide⟩
  · intro body freshId now m store v co h
    have h2 : (checkinHandler body freshId now m store).2 = .created v co := by
      rw [h]
    obtain ⟨hv, -, -⟩ := checkinHandler_created h2
    rw [hv]
    rfl
  · intro t x hx
    rw [mem_dedupe] at hx
    cases t with
    | list xs =>
      obtain ⟨hmem, hne⟩ := List.mem_filter.mp hx
      obtain ⟨s, _, hxs⟩ := List.mem_map.mp hmem
      exact ⟨by simpa using hne, s, hxs.symm⟩
    | str s =>
      obtain ⟨hmem, hne⟩ := List.mem_filter.mp hx
      obtain ⟨u, _, hxu⟩ := List.mem_map.mp hmem
      exact ⟨by simpa using hne, u, hxu.symm⟩
    | missing => exact absurd hx (by simp [rawTechs])

/-- Witness for C5: the stored technician list of a concrete check-in with
input `["Alice", "Alice", " Bob "]` is its normalized form (which
evaluates to `["Alice", "Bob"]`). -/
theorem technician_normalization_spec_witness :
    (insertedVisit bodyDup "new" 0).technicians =
      dedupe (rawTechs bodyDup.technicians) :=
  technician_normalization_spec.1 bodyDup "new" 0 (.ok ()) []
    (insertedVisit bodyDup "new" 0)
    (coActivityFlag bodyDup "new" 0 ([] ++ [insertedVisit bodyDup "new" 0]))
    (by decide)

/-- C6 counterexample: the 400 message the code sends is capitalized
(`At least one technician name is required`), not the lower-case sentence
the claim quotes. -/
theorem checkin_validation_counterexample :
    (checkinHandler bodyNoTech "i" 0 (.ok ()) []).2 =
      .badRequest "At least one technician name is required" ∧
    CheckinResp.badRequest "At least one technician name is required" ≠
      CheckinResp.badRequest "at least one technician name is required" := by
  decide

/-- C6 (amended): check-in fails with 400 and the message `At least one
technician name is required` exactly when the normalized technician list is
empty (in which case nothing is inserted); a missing field, an empty array
and a separators/whitespace-only string all normalize to the empty list;
and whenever the normalized list is non-empty the request succeeds — no
other field's absence causes a validation failure. -/
theorem checkin_validation_spec (body : CheckinBody) (freshId : String)
    (now : Nat) (m : Except String Unit) (store : Store) :
    ((checkinHandler body freshId now m store).2 =
        .badRequest "At least one technician name is required" ↔
      rawTechs body.technicians = []) ∧
    (rawTechs body.technicians = [] →
      checkinHandler body freshId now m store =
        (store, .badRequest "At least one technician name is required")) ∧
    (rawTechs body.technicians ≠ [] →
      ∃ v co, (checkinHandler body freshId now m store).2 = .created v co) ∧
    rawTechs .missing = [] ∧ rawTechs (.list []) = [] ∧
    rawTechs (.str " ,  ,") = [] := by
  refine ⟨?_, ?_, ?_, rfl, rfl, by decide⟩
  · by_cases hte : rawTechs body.technicians = []
    · simp [checkinHandler, hte]
    · simp only [checkinHandler, if_neg hte]
      constructor
      · intro hc; exact absurd hc (by simp)
      · intro hc; exact absurd hc hte
  · intro hte
    rw [checkinHandler, if_pos hte]
  · intro hte
    exact ⟨insertedVisit body freshId now,
      coActivityFlag body freshId now (store ++ [insertedVisit body freshId now]),
      by simp only [checkinHandler, if_neg hte]⟩

/-- Witness for C6 (amended): a body without technicians is rejected with
the 400 message and nothing is stored. -/
theorem checkin_validation_spec_witness :
    checkinHandler bodyNoTech "i" 0 (.ok ()) [] =
      ([], .badRequest "At least one technician name is required") :=
  (checkin_validation_spec bodyNoTech "i" 0 (.ok ()) []).2.1 (by decide)

/-- C7: the guard keyed by `(clientAddress, routePath)` rejects (and does
not count) a request whenever 5 or more counted requests of the key are in
the 60-second window, and admits and counts it otherwise; consequently, of
six requests inside one 60-second span the first five are admitted and the
sixth is rejected, and a further request issued once the oldest counted
request has aged out of the window is admitted again. -/
theorem rate_guard_spec (ip path : String) (t1 t2 t3 t4 t5 t6 t7 : Nat)
    (h12 : t1 ≤ t2) (h23 : t2 ≤ t3) (h34 : t3 ≤ t4) (h45 : t4 ≤ t5)
    (h56 : t5 ≤ t6) (hwin : t6 < t1 + 60000) (hout : t1 + 60000 ≤ t7) :
    (∀ st now, rateMax ≤ countedInWindow (rateKey ip path) now st.hits →
        rateAdmit (rateKey ip path) now st = (false, st)) ∧
    (∀ st now, countedInWindow (rateKey ip path) now st.hits < rateMax →
        (rateAdmit (rateKey ip path) now st).1 = true ∧
        (rateAdmit (rateKey ip path) now st).2.hits =
          (rateKey ip path, now) :: st.hits) ∧
    (rateRun (rateKey ip path) [t1, t2, t3, t4, t5, t6, t7] ⟨[]⟩).1 =
      [true, true, true, true, true, false, true] := by
  set k := rateKey ip path with hk
  refine ⟨?_, ?_, ?_⟩
  · intro st now hge
    rw [rateAdmit, if_neg (by omega)]
  · intro st now hlt
    rw [rateAdmit, if_pos hlt]
    exact ⟨rfl, rfl⟩
  · have c2 : countedInWindow k t2 [(k, t1)] = 1 := by
      simp only [countedInWindow, rateWindowMs, true_and]
      rw [if_pos (by omega : t2 < t1 + 60 * 1000)]
    have c3 : countedInWindow k t3 [(k, t2), (k, t1)] = 2 := by
      simp only [countedInWindow, rateWindowMs, true_and]
      rw [if_pos (by omega : t3 < t2 + 60 * 1000),
        if_pos (by omega : t3 < t1 + 60 * 1000)]
    have c4 : countedInWindow k t4 [(k, t3), (k, t2), (k, t1)] = 3 := by
      simp only [countedInWindow, rateWindowMs, true_and]
      rw [if_pos (by omega : t4 < t3 + 60 * 1000),
        if_pos (by omega : t4 < t2 + 60 * 1000),
        if_pos (by omega : t4 < t1 + 60 * 1000)]
    have c5 : countedInWindow k t5 [(k, t4), (k, t3), (k, t2), (k, t1)] = 4 := by
      simp only [countedInWindow, rateWindowMs, true_and]
      rw [if_pos (by omega : t5 < t4 + 60 * 1000),
        if_pos (by omega : t5 < t3 + 60 * 1000),
        if_pos (by omega : t5 < t2 + 60 * 1000),
        if_pos (by omega : t5 < t1 + 60 * 1000)]
    have c6 : countedInWindow k t6
        [(k, t5), (k, t4), (k, t3), (k, t2), (k, t1)] = 5 := by
      simp only [countedInWindow, rateWindowMs, true_and]
      rw [if_pos (by omega : t6 < t5 + 60 * 1000),
        if_pos (by omega : t6 < t4 + 60 * 1000),
        if_pos (by omega : t6 < t3 + 60 * 1000),
        if_pos (by omega : t6 < t2 + 60 * 1000),
        if_pos (by omega : t6 < t1 + 60 * 1000)]
    have c7 : countedInWindow k t7
        [(k, t5), (k, t4), (k, t3), (k, t2), (k, t1)] < 5 := by
      simp only [countedInWindow, rateWindowMs, true_and]
      rw [if_neg (by omega : ¬t7 < t1 + 60 * 1000)]
      split_ifs <;> omega
    have s1 : rateAdmit k t1 ⟨[]⟩ = (true, ⟨[(k, t1)]⟩) := by
      simp [rateAdmit, countedInWindow, rateMax]
    have s2 : rateAdmit k t2 ⟨[(k, t1)]⟩ = (true, ⟨[(k, t2), (k, t1)]⟩) := by
      simp [rateAdmit, c2, rateMax]
    have s3 : rateAdmit k t3 ⟨[(k, t2), (k, t1)]⟩ =
        (true, ⟨[(k, t3), (k, t2), (k, t1)]⟩) := by
      simp [rateAdmit, c3, rateMax]
    have s4 : rateAdmit k t4 ⟨[(k, t3), (k, t2), (k, t1)]⟩ =
        (true, ⟨[(k, t4), (k, t3), (k, t2), (k, t1)]⟩) := by
      simp [rateAdmit, c4, rateMax]
    have s5 : rateAdmit k t5 ⟨[(k, t4), (k, t3), (k, t2), (k, t1)]⟩ =
        (true, ⟨[(k, t5), (k, t4), (k, t3), (k, t2), (k, t1)]⟩) := by
      simp [rateAdmit, c5, rateMax]
    have s6 : rateAdmit k t6 ⟨[(k, t5), (k, t4), (k, t3), (k, t2), (k, t1)]⟩ =
        (false, ⟨[(k, t5), (k, t4), (k, t3), (k, t2), (k, t1)]⟩) := by
      simp [rateAdmit, c6, rateMax]
    have s7 : (rateAdmit k t7
        ⟨[(k, t5), (k, t4), (k, t3), (k, t2), (k, t1)]⟩).1 = true := by
      rw [rateAdmit, if_pos (by simpa [rateMax] using c7)]
    simp only [rateRun, s1, s2, s3, s4, s5, s6, s7]

/-- Witness for C7: six immediate requests from one address to the check-in
route, then one a minute later. -/
theorem rate_guard_spec_witness :
    (rateRun (rateKey "10.0.0.9" "/api/visits/checkin")
        [0, 1, 2, 3, 4, 5, 60000] ⟨[]⟩).1 =
      [true, true, true, true, true, false, true] :=
  (rate_guard_spec "10.0.0.9" "/api/visits/checkin" 0 1 2 3 4 5 60000
    (by decide) (by decide) (by decide) (by decide) (by decide) (by decide)
    (by decide)).2.2

/-- C8: the notification attempt's outcome (modelling `sendNotification`
failures caught by the handlers' `try/catch`) never changes a handler's
response or resulting table; in particular, a check-in and a check-out
whose state transition succeeded still return their success responses
(201 with the visit; `{visitId, checkOut}`) when the mail step fails, and
the committed transition is kept. -/
theorem notification_best_effort_spec :
    (∀ body freshId now m m2 store,
        checkinHandler body freshId now m store =
          checkinHandler body freshId now m2 store) ∧
    (∀ visitId now m m2 store,
        checkoutHandler visitId now m store =
          checkoutHandler visitId now m2 store) ∧
    (∀ body freshId now e store, rawTechs body.technicians ≠ [] →
        ∃ v co, checkinHandler body freshId now (.error e) store =
          (store ++ [v], .created v co)) ∧
    (∀ store vid now e, vid ≠ "" →
        (∃ v ∈ store, v.id = vid ∧ v.check_out = none) →
        checkoutHandler (some vid) now (.error e) store =
          (closeAll vid now store, .ok vid now)) := by
  refine ⟨fun _ _ _ _ _ _ => rfl, fun _ _ _ _ _ => rfl, ?_,
    fun store vid now e hvid hex => checkoutHandler_success hvid hex⟩
  intro body freshId now e store hte
  exact ⟨insertedVisit body freshId now,
    coActivityFlag body freshId now (store ++ [insertedVisit body freshId now]),
    by simp only [checkinHandler, if_neg hte]⟩

/-- Witness for C8: a failing mail step leaves a concrete check-in's
output identical to the succeeding one, and a concrete check-out still
commits and answers `{visitId, checkOut}`. -/
theorem notification_best_effort_spec_witness :
    checkinHandler bodyAlice "n" 0 (.error "smtp down") [] =
      checkinHandler bodyAlice "n" 0 (.ok ()) [] ∧
    checkoutHandler (some "v1") 3 (.error "smtp down") [visitActiveP] =
      (closeAll "v1" 3 [visitActiveP], .ok "v1" 3) :=
  ⟨notification_best_effort_spec.1 bodyAlice "n" 0 (.error "smtp down")
      (.ok ()) [],
   notification_best_effort_spec.2.2.2 [visitActiveP] "v1" 3 "smtp down"
      (by decide) ⟨visitActiveP, by decide, rfl, rfl⟩⟩

theorem siteDash_ne_empty (p : String) : "SITE-" ++ p ≠ "" := by
  intro h
  have hd : ("SITE-" ++ p).data = "".data := congrArg String.data h
  rw [String.data_append] at hd
  have h5 : "SITE-".data = 'S' :: 'I' :: 'T' :: 'E' :: '-' :: [] := rfl
  rw [h5] at hd
  simp at hd

theorem turbineFallback_ne_empty (powerPlant : Option String) :
    turbineFallback powerPlant ≠ "" := by
  rw [turbineFallback]
  cases orNull powerPlant with
  | none => decide
  | some p => exact siteDash_ne_empty p

/-- C9: a check-in with an absent (or non-string) or blank `turbineId`
still creates the visit, storing a non-empty synthesized placeholder:
`SITE-` followed by the power plant when that field is truthy, the fixed
`N/A` otherwise; a present non-blank `turbineId` is stored trimmed. -/
theorem turbine_fallback_spec (body : CheckinBody) (freshId : String)
    (now : Nat) (m : Except String Unit) (store : Store)
    (htech : rawTechs body.technicians ≠ []) :
    ∃ v co, checkinHandler body freshId now m store =
        (store ++ [v], .created v co) ∧
      ((body.turbineId = none ∨ ∃ t, body.turbineId = some t ∧ jsTrim t = "") →
        v.turbine_id = turbineFallback body.powerPlant ∧ v.turbine_id ≠ "") ∧
      (∀ t, body.turbineId = some t → jsTrim t ≠ "" →
        v.turbine_id = jsTrim t) ∧
      (∀ p, orNull body.powerPlant = some p →
        turbineFallback body.powerPlant = "SITE-" ++ p) ∧
      (orNull body.powerPlant = none →
        turbineFallback body.powerPlant = "N/A") := by
  refine ⟨insertedVisit body freshId now,
    coActivityFlag body freshId now (store ++ [insertedVisit body freshId now]),
    by simp only [checkinHandler, if_neg htech], ?_, ?_, ?_, ?_⟩
  · rintro (h | ⟨t, ht, htr⟩)
    · exact ⟨by simp [insertedVisit, resolveTurbineId, h],
        by simp [insertedVisit, resolveTurbineId, h,
          turbineFallback_ne_empty]⟩
    · exact ⟨by simp [insertedVisit, resolveTurbineId, ht, htr],
        by simp [insertedVisit, resolveTurbineId, ht, htr,
          turbineFallback_ne_empty]⟩
  · intro t ht htr
    simp [insertedVisit, resolveTurbineId, ht, htr]
  · intro p hp
    rw [turbineFallback, hp]
  · intro hp
    rw [turbineFallback, hp]

/-- Witness for C9: a check-in without `turbineId` at plant `P` stores the
placeholder `SITE-P`. -/
theorem turbine_fallback_spec_witness :
    ∃ v co, checkinHandler bodyAlice "n" 0 (.ok ()) [] =
        ([] ++ [v], .created v co) ∧
      ((bodyAlice.turbineId = none ∨
          ∃ t, bodyAlice.turbineId = some t ∧ jsTrim t = "") →
        v.turbine_id = turbineFallback bodyAlice.powerPlant ∧
        v.turbine_id ≠ "") ∧
      (∀ t, bodyAlice.turbineId = some t → jsTrim t ≠ "" →
        v.turbine_id = jsTrim t) ∧
      (∀ p, orNull bodyAlice.powerPlant = some p →
        turbineFallback bodyAlice.powerPlant = "SITE-" ++ p) ∧
      (orNull bodyAlice.powerPlant = none →
        turbineFallback bodyAlice.powerPlant = "N/A") :=
  turbine_fallback_spec bodyAlice "n" 0 (.ok ()) [] (by decide)

/-- C10: every optional text field of a check-in that is absent or supplied
as the empty string is stored as `NULL`; the inserted row therefore never
holds an empty string in any of these columns, and a table free of
empty-string optionals stays so across the insert. -/
theorem optional_fields_null_spec (body : CheckinBody) (freshId : String)
    (now : Nat) (m : Except String Unit) (store : Store) (v : Visit)
    (co : Bool)
    (h : checkinHandler body freshId now m store = (store ++ [v], .created v co)) :
    ((body.reason = none ∨ body.reason = some "") → v.reason = none) ∧
    ((body.comment = none ∨ body.comment = some "") → v.comment = none) ∧
    ((body.powerPlant = none ∨ body.powerPlant = some "") →
      v.power_plant = none) ∧
    ((body.equipmentName = none ∨ body.equipmentName = some "") →
      v.equipment_name = none) ∧
    ((body.maintenanceCompany = none ∨ body.maintenanceCompany = some "") →
      v.maintenance_company = none) ∧
    ((body.status = none ∨ body.status = some "") → v.status = none) ∧
    ((body.malfunctionType = none ∨ body.malfunctionType = some "") →
      v.malfunction_type = none) ∧
    noEmptyOptionalFields v ∧
    ((∀ w ∈ store, noEmptyOptionalFields w) →
      ∀ w ∈ store ++ [v], noEmptyOptionalFields w) := by
  have h2 : (checkinHandler body freshId now m store).2 = .created v co := by
    rw [h]
  obtain ⟨hv, -, -⟩ := checkinHandler_created h2
  subst hv
  have hne : noEmptyOptionalFields (insertedVisit body freshId now) :=
    ⟨orNull_ne_some_empty _, orNull_ne_some_empty _, orNull_ne_some_empty _,
      orNull_ne_some_empty _, orNull_ne_some_empty _, orNull_ne_some_empty _,
      orNull_ne_some_empty _⟩
  refine ⟨fun hr => orNull_eq_none.mpr hr, fun hr => orNull_eq_none.mpr hr,
    fun hr => orNull_eq_none.mpr hr, fun hr => orNull_eq_none.mpr hr,
    fun hr => orNull_eq_none.mpr hr, fun hr => orNull_eq_none.mpr hr,
    fun hr => orNull_eq_none.mpr hr, hne, ?_⟩
  intro hall w hw
  rcases List.mem_append.mp hw with hws | hwv
  · exact hall w hws
  · rw [List.mem_singleton.mp hwv]
    exact hne

/-- Witness for C10: the concrete check-in body with all optional fields
absent stores `NULL` everywhere and no empty string. -/
theorem optional_fields_null_spec_witness :
    ((bodyAlice.reason = none ∨ bodyAlice.reason = some "") →
      (insertedVisit bodyAlice "n" 0).reason = none) ∧
    ((bodyAlice.comment = none ∨ bodyAlice.comment = some "") →
      (insertedVisit bodyAlice "n" 0).comment = none) ∧
    ((bodyAlice.powerPlant = none ∨ bodyAlice.powerPlant = some "") →
      (insertedVisit bodyAlice "n" 0).power_plant = none) ∧
    ((bodyAlice.equipmentName = none ∨ bodyAlice.equipmentName = some "") →
      (insertedVisit bodyAlice "n" 0).equipment_name = none) ∧
    ((bodyAlice.maintenanceCompany = none ∨
        bodyAlice.maintenanceCompany = some "") →
      (insertedVisit bodyAlice "n" 0).maintenance_company = none) ∧
    ((bodyAlice.status = none ∨ bodyAlice.status = some "") →
      (insertedVisit bodyAlice "n" 0).status = none) ∧
    ((bodyAlice.malfunctionType = none ∨ bodyAlice.malfunctionType = some "") →
      (insertedVisit bodyAlice "n" 0).malfunction_type = none) ∧
    noEmptyOptionalFields (insertedVisit bodyAlice "n" 0) ∧
    ((∀ w ∈ ([] : Store), noEmptyOptionalFields w) →
      ∀ w ∈ [] ++ [insertedVisit bodyAlice "n" 0], noEmptyOptionalFields w) :=
  optional_fields_null_spec bodyAlice "n" 0 (.ok ()) []
    (insertedVisit bodyAlice "n" 0)
    (coActivityFlag bodyAlice "n" 0 ([] ++ [insertedVisit bodyAlice "n" 0]))
    (by simp only [checkinHandler, if_neg (by decide : ¬rawTechs bodyAlice.technicians = [])])

end VisitApp
